import Mathlib

/-!
# Verification of the katana-hypervisor control plane

Shallow embedding, in Lean 4, of the parts of the katana-hypervisor
repository that the specification's claims are about:

* the instance lifecycle state machine and its persisted rows
  (`crates/katana-core/src/instance/state.rs`, `src/cli/start.rs`,
  `src/cli/stop.rs`, `src/cli/delete.rs`);
* the daemon API error mapping (`crates/katana-daemon/src/error.rs`);
* the port allocator (`crates/katana-core/src/port/allocator.rs`);
* the QEMU argument-vector builder (`src/qemu/config.rs`);
* the attestation verifier (`src/tee/attestation.rs`);
* the batched log tail and the follow-log poll loop
  (`crates/katana-daemon/src/api/logs.rs`).

Effectful Rust code is embedded as pure state passing: the outcomes of
process spawns, filesystem probes and clock reads are inputs to the
embedded functions, and every database `save_instance` call becomes an
element of an explicit list of persisted rows.
-/

namespace Katana

/-! ## Instance status and state (`crates/katana-core/src/instance/state.rs`) -/

/-- `InstanceStatus` from `instance/state.rs`. -/
inductive InstanceStatus where
  | created
  | starting
  | running
  | stopping
  | stopped
  | failed (error : String)
  deriving DecidableEq, Repr

/-- Modelled from the spec: the immutable instance configuration (§3 of the
spec); the Rust definition of `InstanceConfig` is not among the provided
sources, only the fields the lifecycle code reads.  The lifecycle claims do
not depend on any of these fields beyond their presence. -/
structure InstanceConfig where
  vcpus : Nat
  memory_mb : Nat
  storage_bytes : Nat
  rpc_port : Nat
  vcpu_type : String
  tee_mode : Bool
  kernel_path : String
  initrd_path : String
  ovmf_path : Option String
  expected_measurement : Option String
  deriving DecidableEq, Repr

/-- `InstanceState` from `instance/state.rs`: the persisted row. -/
structure InstanceState where
  id : String
  name : String
  status : InstanceStatus
  config : InstanceConfig
  vm_pid : Option Int
  qmp_socket : Option String
  serial_log : Option String
  created_at : Int
  updated_at : Int
  deriving DecidableEq, Repr

/-- `InstanceState::new` — the clock read `chrono::Utc::now().timestamp()`
is passed in as `now`. -/
def InstanceState.new (id name : String) (config : InstanceConfig)
    (now : Int) : InstanceState :=
  { id := id
    name := name
    status := .created
    config := config
    vm_pid := none
    qmp_socket := none
    serial_log := none
    created_at := now
    updated_at := now }

/-- `InstanceState::update_status` with the clock read passed in. -/
def InstanceState.update_status (st : InstanceState) (status : InstanceStatus)
    (now : Int) : InstanceState :=
  { st with status := status, updated_at := now }

/-! ## Error taxonomy and API error mapping (`crates/katana-daemon/src/error.rs`) -/

/-- The `HypervisorError` variants, as matched by
`impl From<HypervisorError> for ApiError` in `error.rs` (the enum's own
declaration lives in `katana-core`; the variants and payloads are exactly
those named by the `match` arms, with a residual `other` constructor for
the `_` arm).  `InvalidStateTransition`'s payloads are `Debug`-formatted
statuses; they are embedded as the formatted strings. -/
inductive HypervisorError where
  | instanceNotFound (name : String)
  | instanceAlreadyExists (name : String)
  | invalidStateTransition (fromSt toSt : String)
  | portUnavailable (port : Nat)
  | noPortsAvailable
  | storageQuotaExceeded (used limit : Nat)
  | qemuFailed (msg : String)
  | vmProcessNotFound (id : String)
  | other (msg : String)
  deriving DecidableEq, Repr

/-- `ApiError` from `error.rs`. -/
inductive ApiError where
  | notFound (msg : String)
  | conflict (msg : String)
  | badRequest (msg : String)
  | internal (msg : String)
  deriving DecidableEq, Repr

/-- The HTTP status chosen by `impl IntoResponse for ApiError`. -/
def ApiError.statusCode : ApiError → Nat
  | .notFound _ => 404
  | .conflict _ => 409
  | .badRequest _ => 400
  | .internal _ => 500

/-- The error code string chosen by `impl IntoResponse for ApiError`. -/
def ApiError.errorCode : ApiError → String
  | .notFound _ => "NOT_FOUND"
  | .conflict _ => "CONFLICT"
  | .badRequest _ => "BAD_REQUEST"
  | .internal _ => "INTERNAL_ERROR"

/-- `impl From<HypervisorError> for ApiError` in `error.rs`.  Message
formatting follows the `format!` calls; only the constructor choice matters
to the claims. -/
def apiErrorOfHypervisorError : HypervisorError → ApiError
  | .instanceNotFound name =>
      .notFound ("Instance '" ++ name ++ "' not found")
  | .instanceAlreadyExists name =>
      .conflict ("Instance '" ++ name ++ "' already exists")
  | .invalidStateTransition fromSt toSt =>
      .badRequest ("Invalid state transition from " ++ fromSt ++ " to " ++ toSt)
  | .portUnavailable port =>
      .conflict ("Port " ++ toString port ++ " is not available")
  | .noPortsAvailable =>
      .conflict "No ports available"
  | .storageQuotaExceeded used limit =>
      .badRequest ("Storage quota exceeded: used " ++ toString used ++
        ", limit " ++ toString limit)
  | .qemuFailed msg =>
      .internal ("QEMU operation failed: " ++ msg)
  | .vmProcessNotFound id =>
      .notFound ("VM process not found for instance '" ++ id ++ "'")
  | .other msg => .internal msg

/-! ## Hypervisor launch (`crates/katana-core/src/qemu/vm.rs`) -/

/-- Outcome of spawning the foreground `qemu-system-x86_64` process and
waiting for it (`Command::new(..).spawn()?.wait_with_output()?`):
`exitSuccess` is `output.status.success()` and `stderr` the captured
standard error. -/
structure SpawnOutput where
  exitSuccess : Bool
  stderr : String
  deriving DecidableEq, Repr

/-- The effectful environment `VmManager::launch_vm` runs in: the spawn
outcome and the content of the QEMU PID file after the 500 ms wait
(`none` when the file is missing). -/
structure QemuEnv where
  spawn : SpawnOutput
  pidFile : Option String
  deriving DecidableEq, Repr

/-- Rust `str::trim`: strip leading and trailing whitespace. -/
def rustTrim (cs : List Char) : List Char :=
  ((cs.dropWhile Char.isWhitespace).reverse.dropWhile Char.isWhitespace).reverse

/-- Decimal digit value, `none` for a non-digit. -/
def digitVal (c : Char) : Option Nat :=
  if '0' ≤ c ∧ c ≤ '9' then some (c.toNat - 48) else none

/-- A nonempty all-digit string as a number. -/
def parseNatDigits : List Char → Option Nat
  | [] => none
  | cs =>
    cs.foldl
      (fun acc c =>
        match acc, digitVal c with
        | some a, some d => some (10 * a + d)
        | _, _ => none)
      (some 0)

/-- Rust `str::parse::<i32>`: optional sign then decimal digits (the
`i32` overflow failure is not modelled; PID values fit). -/
def parseInt (cs : List Char) : Option Int :=
  match cs with
  | '-' :: rest => (parseNatDigits rest).map (fun n => -(n : Int))
  | '+' :: rest => (parseNatDigits rest).map (fun n => (n : Int))
  | _ => (parseNatDigits cs).map (fun n => (n : Int))

/-- `VmManager::launch_vm` from `qemu/vm.rs`, with the process spawn and
the PID-file read supplied by `env`.  A nonzero foreground exit yields
`QemuFailed("QEMU launch failed: <stderr>")`; a missing PID file yields
`QemuFailed("PID file not found")`; an unparsable PID yields a
`QemuFailed("Invalid PID in file: ...")`. -/
def launch_vm (env : QemuEnv) : Except HypervisorError Int :=
  if env.spawn.exitSuccess then
    match env.pidFile with
    | none => .error (.qemuFailed "PID file not found")
    | some content =>
      match parseInt (rustTrim content.data) with
      | some pid => .ok pid
      | none => .error (.qemuFailed "Invalid PID in file: invalid digit found in string")
  else
    .error (.qemuFailed ("QEMU launch failed: " ++ env.spawn.stderr))

/-! ## CLI start (`src/cli/start.rs`) and stop (`src/cli/stop.rs`)

Each operation is embedded as a function from the loaded instance row and
an environment (filesystem probes, spawn outcome, clock reads) to the
ordered list of rows it persists through `db.save_instance` together with
its result.  `anyhow::bail!` messages become `.errMsg`; a propagated
`HypervisorError` becomes `.errHyp`. -/

/-- Result of a CLI lifecycle operation. -/
inductive CliResult where
  | ok
  | errMsg (msg : String)
  | errHyp (e : HypervisorError)
  deriving DecidableEq, Repr

/-- Environment of `cli::start::execute`: existence of the boot
components, the QEMU launch environment, and the clock read of the
`update_status` call. -/
structure StartEnv where
  kernelExists : Bool
  initrdExists : Bool
  qemu : QemuEnv
  now : Int
  deriving DecidableEq, Repr

/-- `cli::start::execute` from `start.rs`, given the row loaded from the
database.  The `QemuConfig` assembly between the guards and the launch
only feeds `launch_vm`'s argument vector and does not touch the persisted
row, so the launch outcome is read from `env.qemu` directly.  Returns the
rows persisted by `db.save_instance`, in order, and the result. -/
def startExecute (st : InstanceState) (env : StartEnv) :
    List InstanceState × CliResult :=
  match st.status with
  | .running => ([], .ok)
  | .starting => ([], .errMsg ("Instance '" ++ st.name ++ "' is already starting"))
  | _ =>
    if ¬ env.kernelExists then
      ([], .errMsg ("Kernel not found at " ++ st.config.kernel_path))
    else if ¬ env.initrdExists then
      ([], .errMsg ("Initrd not found at " ++ st.config.initrd_path))
    else
      match launch_vm env.qemu with
      | .error e => ([], .errHyp e)
      | .ok pid =>
        let st' := { st with vm_pid := some pid }
        let st' := st'.update_status .running env.now
        ([st'], .ok)

/-- Environment of `cli::stop::execute`: the clock reads of the two
`update_status` calls and the outcome of `VmManager::stop_vm`. -/
structure StopEnv where
  now1 : Int
  now2 : Int
  stopOk : Bool
  deriving DecidableEq, Repr

/-- `cli::stop::execute` from `stop.rs`, given the row loaded from the
database.  Returns the rows persisted by `db.save_instance`, in order,
and the result. -/
def stopExecute (st : InstanceState) (env : StopEnv) :
    List InstanceState × CliResult :=
  match st.status with
  | .stopped => ([], .ok)
  | .stopping => ([], .ok)
  | .running =>
    match st.vm_pid with
    | none => ([], .errMsg "Instance has no PID")
    | some _ =>
      let st1 := st.update_status .stopping env.now1
      if ¬ env.stopOk then
        ([st1], .errHyp (.qemuFailed "Failed to send SIGTERM: ESRCH"))
      else
        let st2 := { st1 with vm_pid := none }
        let st2 := st2.update_status .stopped env.now2
        ([st1, st2], .ok)
  | _ => ([], .errMsg ("Instance '" ++ st.name ++ "' is not running"))

/-- Modelled from the spec: the row inserted by `create` (§4.1: "reserve
port; create storage dir; ...; insert instance row"; `src/cli/create.rs`
is not among the provided sources).  The inserted row is a freshly built
`InstanceState::new` with the per-instance storage paths filled in; per
§3 the created row carries status `Created` and no `vm_pid`. -/
def createRow (id name : String) (config : InstanceConfig)
    (qmp serial : Option String) (now : Int) : InstanceState :=
  { InstanceState.new id name config now with
    qmp_socket := qmp, serial_log := serial }

/-- The persisted rows of one instance reachable from creation through
the lifecycle operations: every row written by `db.save_instance` during
`create`, `start` or `stop` run against a reachable row.  `delete` only
removes the row (`cli/delete.rs` performs no `save_instance`), so it
contributes no constructor. -/
inductive ReachableRow : InstanceState → Prop where
  | create (id name : String) (config : InstanceConfig)
      (qmp serial : Option String) (now : Int) :
      ReachableRow (createRow id name config qmp serial now)
  | start_write {st st' : InstanceState} (env : StartEnv) :
      ReachableRow st → st' ∈ (startExecute st env).1 → ReachableRow st'
  | stop_write {st st' : InstanceState} (env : StopEnv) :
      ReachableRow st → st' ∈ (stopExecute st env).1 → ReachableRow st'

/-! ## Port allocator (`crates/katana-core/src/port/allocator.rs`)

`allocate_port` scans from `base_port` with a `u16` candidate counter.
Release-mode Rust wraps `u16` addition modulo `2^16`; the counter is
embedded as a `Nat` reduced modulo `65536` on increment.  The database
read `get_allocated_ports` and the OS probe `local_port_available` are
inputs. -/

/-- One `u16` increment under wraparound semantics. -/
def u16succ (n : Nat) : Nat := (n + 1) % 65536

/-- A candidate is accepted iff it is absent from the port table and the
OS-level bind probe succeeds (`!allocated_ports.contains(&candidate) &&
local_port_available(candidate)`). -/
def portAcceptable (allocated : List Nat) (avail : Nat → Bool) (c : Nat) : Bool :=
  !allocated.contains c && avail c

/-- The `for _ in 0..max_attempts` loop of `allocate_port`. -/
def allocLoop (allocated : List Nat) (avail : Nat → Bool) :
    Nat → Nat → Except HypervisorError Nat
  | _, 0 => .error .noPortsAvailable
  | candidate, fuel + 1 =>
    if portAcceptable allocated avail candidate then .ok candidate
    else allocLoop allocated avail (u16succ candidate) fuel

/-- `PortAllocator::allocate_port` with `max_attempts = 1000`. -/
def allocate_port (allocated : List Nat) (avail : Nat → Bool) (base : Nat) :
    Except HypervisorError Nat :=
  allocLoop allocated avail base 1000

/-! ## QEMU argument vector (`src/qemu/config.rs`) -/

/-- `SevSnpConfig` from `qemu/config.rs`. -/
structure SevSnpConfig where
  cbitpos : Nat
  reduced_phys_bits : Nat
  vcpu_type : String
  deriving DecidableEq, Repr

/-- `QemuConfig` from `qemu/config.rs`; paths are embedded as the strings
QEMU receives (`to_string_lossy`). -/
structure QemuConfig where
  memory_mb : Nat
  vcpus : Nat
  cpu_type : String
  kernel_path : String
  initrd_path : String
  bios_path : Option String
  kernel_cmdline : String
  rpc_port : Nat
  disk_image : Option String
  qmp_socket : String
  serial_log : String
  pid_file : String
  sev_snp : Option SevSnpConfig
  enable_kvm : Bool
  deriving DecidableEq, Repr

/-- `QemuConfig::to_qemu_args`: the sequence of `args.push` calls, as one
concatenation in push order. -/
def QemuConfig.to_qemu_args (c : QemuConfig) : List String :=
  ["qemu-system-x86_64"]
  ++ (if c.enable_kvm then ["-enable-kvm"] else [])
  ++ (match c.sev_snp with
      | some s =>
        ["-cpu", s.vcpu_type,
         "-machine", "q35,confidential-guest-support=sev0",
         "-object",
         "sev-snp-guest,id=sev0,cbitpos=" ++ toString s.cbitpos ++
           ",reduced-phys-bits=" ++ toString s.reduced_phys_bits]
        ++ (match c.bios_path with
            | some b => ["-bios", b]
            | none => [])
      | none =>
        ["-cpu", c.cpu_type, "-machine", "q35"])
  ++ ["-smp", toString c.vcpus,
      "-m", toString c.memory_mb ++ "M",
      "-kernel", c.kernel_path,
      "-initrd", c.initrd_path,
      "-append", c.kernel_cmdline,
      "-netdev", "user,id=net0,hostfwd=tcp::" ++ toString c.rpc_port ++ "-:5050",
      "-device", "virtio-net-pci,netdev=net0"]
  ++ (match c.disk_image with
      | some d => ["-drive", "file=" ++ d ++ ",if=virtio,format=qcow2"]
      | none => [])
  ++ ["-display", "none",
      "-serial", "file:" ++ c.serial_log,
      "-qmp", "unix:" ++ c.qmp_socket ++ ",server,nowait",
      "-daemonize",
      "-pidfile", c.pid_file]

/-- `QemuConfig::build_kernel_cmdline`. -/
def QemuConfig.build_kernel_cmdline (katana_args : List String) : String :=
  "console=ttyS0 loglevel=4 katana.args=" ++ String.intercalate " " katana_args

/-! ## Hex codec and attestation verifier (`src/tee/attestation.rs`)

`hex::decode` accepts an even-length string of hex digits (both cases)
and fails otherwise; `hex::encode` produces lowercase.  Bytes are
embedded as `Nat`s below 256. -/

/-- Value of one hex digit, `none` for a non-digit. -/
def hexDigitVal : Char → Option Nat := fun c =>
  if '0' ≤ c ∧ c ≤ '9' then some (c.toNat - 48)
  else if 'a' ≤ c ∧ c ≤ 'f' then some (c.toNat - 87)
  else if 'A' ≤ c ∧ c ≤ 'F' then some (c.toNat - 55)
  else none

/-- `hex::decode` on a character list: pairs of digits to bytes, `none`
on odd length or a non-digit. -/
def hexDecode : List Char → Option (List Nat)
  | [] => some []
  | [_] => none
  | c1 :: c2 :: rest =>
    match hexDigitVal c1, hexDigitVal c2, hexDecode rest with
    | some h, some l, some tl => some ((16 * h + l) :: tl)
    | _, _, _ => none

/-- Lowercase hex digit for a nibble. -/
def hexDigitChar (n : Nat) : Char :=
  if n < 10 then Char.ofNat (48 + n) else Char.ofNat (87 + n)

/-- `hex::encode`: two lowercase digits per byte. -/
def hexEncode : List Nat → List Char
  | [] => []
  | b :: rest => hexDigitChar (b / 16) :: hexDigitChar (b % 16) :: hexEncode rest

/-- `str::trim_start_matches("0x")`: strip every leading `0x`. -/
def stripHexPrefixes : List Char → List Char
  | '0' :: 'x' :: rest => stripHexPrefixes rest
  | l => l

/-- ASCII lowercasing of one character (`u8::to_ascii_lowercase`). -/
def asciiLower (c : Char) : Char :=
  if 'A' ≤ c ∧ c ≤ 'Z' then Char.ofNat (c.toNat + 32) else c

/-- `str::eq_ignore_ascii_case`. -/
def eqIgnoreAsciiCase (a b : String) : Bool :=
  a.data.map asciiLower == b.data.map asciiLower

/-- `AttestationVerifier::extract_measurement_from_report`: strip the
optional `0x` prefix, hex-decode, require at least `144 + 48` bytes, and
return the hex encoding of bytes `[144, 192)`. -/
def extract_measurement_from_report (report_hex : String) : Except String String :=
  match hexDecode (stripHexPrefixes report_hex.data) with
  | none => .error "Invalid hex character or odd length"
  | some bytes =>
    if bytes.length < 144 + 48 then
      .error ("Attestation report too small: " ++ toString bytes.length ++
        " bytes (expected at least 192)")
    else
      .ok (String.mk (hexEncode ((bytes.drop 144).take 48)))

/-- `QuoteResponse` from `attestation.rs` (the parsed RPC result). -/
structure QuoteResponse where
  quote : String
  block_number : Nat
  block_hash : String
  state_root : String
  deriving DecidableEq, Repr

/-- `AttestationResult` from `attestation.rs`. -/
structure AttestationResult where
  verified : Bool
  expected_measurement : String
  actual_measurement : String
  block_number : Nat
  block_hash : String
  state_root : String
  quote_hex : String
  deriving DecidableEq, Repr

/-- `AttestationVerifier::verify_attestation`, pure tail: the RPC round
trip `call_generate_quote` is an input (`resp`); the rest of the function
extracts the measurement and compares case-insensitively. -/
def verify_attestation (resp : QuoteResponse) (expected_measurement : String) :
    Except String AttestationResult :=
  match extract_measurement_from_report resp.quote with
  | .error e => .error e
  | .ok actual =>
    .ok { verified := eqIgnoreAsciiCase actual expected_measurement
          expected_measurement := expected_measurement
          actual_measurement := actual
          block_number := resp.block_number
          block_hash := resp.block_hash
          state_root := resp.state_root
          quote_hex := resp.quote }

/-! ## Log reading (`crates/katana-daemon/src/api/logs.rs`) -/

/-- The trailing carriage-return strip performed by `BufRead::lines` after
removing a `\n`. -/
def stripTrailingCR (l : List Char) : List Char :=
  if l.getLast? = some '\r' then l.dropLast else l

/-- `BufRead::lines` on a file content: split on `\n`; every segment
before a `\n` has a trailing `\r` removed; a final segment is kept as
is when nonempty and dropped when empty (trailing newline). -/
def readerLines (cs : List Char) : List String :=
  let parts := cs.splitOn '\n'
  let completed := parts.dropLast.map (fun l => String.mk (stripTrailingCR l))
  match parts.getLast? with
  | some [] => completed
  | some last => completed ++ [String.mk last]
  | none => completed

/-- `LogsResponse` from `logs.rs`. -/
structure LogsResponse where
  instance_name : String
  lines : List String
  total_lines : Nat
  deriving DecidableEq, Repr

/-- `get_logs` from `logs.rs`, happy path: the instance lookup and the
existence checks passed and the file read yielded `content`.  Reads all
lines, reports their count, and slices the last `tail` of them. -/
def get_logs (name : String) (content : List Char) (tail : Nat) : LogsResponse :=
  let all_lines := readerLines content
  let total_lines := all_lines.length
  let start_idx := if all_lines.length > tail then all_lines.length - tail else 0
  { instance_name := name
    lines := all_lines.drop start_idx
    total_lines := total_lines }

/-! ## Follow-log poll loop (`create_log_stream` in `logs.rs`)

One iteration of the `loop` is embedded as a pure step on the stream's
mutable state, with the filesystem observations of that iteration as
inputs.  The kernel-watch registration is tracked as the inode the watch
is attached to. -/

/-- The events yielded over the SSE transport. -/
inductive SseEvent where
  | init (inst : String) (tail : Nat)
  | log (line : String)
  | heartbeat (timestamp : Nat)
  | info (msg : String)
  | error (msg : String)
  deriving DecidableEq, Repr

/-- Whether an event is an `info` event. -/
def SseEvent.isInfo : SseEvent → Bool
  | .info _ => true
  | _ => false

/-- The loop's mutable state: `last_pos`, `current_inode`, and the inode
the kernel watch is registered on. -/
structure FollowState where
  lastPos : Nat
  currentInode : Option Nat
  watchedInode : Option Nat
  deriving DecidableEq, Repr

/-- Observations of one poll iteration: whether the heartbeat interval
elapsed and the clock read for it; whether the path exists; the result of
`stat(path)` (`none` on error); the content of the file currently at the
path; the content of the file the open handle still refers to; and the
outcome of the `File::open` performed on rotation. -/
structure PollEnv where
  heartbeatDue : Bool
  now : Nat
  pathExists : Bool
  pathStat : Option Nat
  pathContent : List Char
  oldHandleContent : List Char
  reopenOk : Bool
  deriving DecidableEq, Repr

/-- One iteration of the `loop` in `create_log_stream`: heartbeat,
deletion check, the two rotation heuristics (inode change via
`stat(path)`, truncation via a seek-to-end on the open handle), rotation
handling (reopen, reset `last_pos`, refresh the inode cache and the
watch, one `info` event), then reading from `last_pos` to the end of the
open handle.  Returns the new state, the events yielded this iteration in
order, and whether the loop continues. -/
def pollStep (st : FollowState) (env : PollEnv) :
    FollowState × List SseEvent × Bool :=
  let hbEvents := if env.heartbeatDue then [SseEvent.heartbeat env.now] else []
  if ¬ env.pathExists then
    (st, hbEvents ++ [SseEvent.error "Log file was deleted"], false)
  else
    let inodeChanged :=
      match env.pathStat, st.currentInode with
      | some ni, some oi => ni != oi
      | _, _ => false
    let inodeAfterDetect :=
      if inodeChanged then env.pathStat else st.currentInode
    let truncated := decide (env.oldHandleContent.length < st.lastPos)
    let rotated := inodeChanged || truncated
    let reopened := rotated && env.reopenOk
    let st2 : FollowState :=
      if reopened then
        { lastPos := 0
          currentInode := env.pathStat
          watchedInode := env.pathStat }
      else
        { st with currentInode := inodeAfterDetect }
    let rotEvents :=
      if reopened then [SseEvent.info "Log file rotated, reopened"] else []
    let handleContent := if reopened then env.pathContent else env.oldHandleContent
    let size := handleContent.length
    let (logEvents, finalPos) :=
      if size > st2.lastPos then
        ((readerLines (handleContent.drop st2.lastPos)).map SseEvent.log, size)
      else
        ([], st2.lastPos)
    ({ st2 with lastPos := finalPos }, hbEvents ++ rotEvents ++ logEvents, true)

/-! ## Concrete instances used by the witnesses -/

/-- A concrete configuration used by the lifecycle witnesses. -/
def sampleConfig : InstanceConfig :=
  { vcpus := 2
    memory_mb := 1024
    storage_bytes := 2048
    rpc_port := 5050
    vcpu_type := "host"
    tee_mode := false
    kernel_path := "/k"
    initrd_path := "/i"
    ovmf_path := none
    expected_measurement := none }

/-- A created instance row, loaded by the C2 counterexample. -/
def c2State : InstanceState := InstanceState.new "id0" "a" sampleConfig 0

/-- A start environment whose hypervisor spawn exits nonzero with stderr
`boom`. -/
def c2Env : StartEnv :=
  { kernelExists := true
    initrdExists := true
    qemu := { spawn := { exitSuccess := false, stderr := "boom" }, pidFile := none }
    now := 7 }

/-- The row persisted by a successful start of a freshly created
instance. -/
def c3RunningRow : InstanceState :=
  { InstanceState.new "id0" "a" sampleConfig 0 with
    vm_pid := some 42, status := .running, updated_at := 7 }

/-- The environment of that successful start: the spawn daemonizes with
exit 0 and the PID file holds `42`. -/
def c3Env : StartEnv :=
  { kernelExists := true
    initrdExists := true
    qemu := { spawn := { exitSuccess := true, stderr := "" }, pidFile := some "42" }
    now := 7 }

/-- The zero quote of exactly 192 bytes, used by the attestation
witnesses. -/
def zeroQuote192 : QuoteResponse :=
  { quote := String.mk (hexEncode (List.replicate 192 0))
    block_number := 1
    block_hash := "h"
    state_root := "r" }

/-- The hex encoding of 48 zero bytes. -/
def zeroMeasurement48 : String := String.mk (hexEncode (List.replicate 48 0))

/-- The zero quote of 10 bytes, shorter than a report. -/
def zeroQuote10 : QuoteResponse :=
  { quote := String.mk (hexEncode (List.replicate 10 0))
    block_number := 1
    block_hash := "h"
    state_root := "r" }

/-- The claim's concrete SEV configuration: 4 vCPUs, 4096 MiB, RPC port
5050, cbitpos 51, reduced-phys-bits 1, vCPU model EPYC-v4, BIOS `/o`. -/
def sevClaimConfig : QemuConfig :=
  { memory_mb := 4096
    vcpus := 4
    cpu_type := "host"
    kernel_path := "/k"
    initrd_path := "/i"
    bios_path := some "/o"
    kernel_cmdline := "console=ttyS0"
    rpc_port := 5050
    disk_image := none
    qmp_socket := "/q"
    serial_log := "/s"
    pid_file := "/p"
    sev_snp := some { cbitpos := 51, reduced_phys_bits := 1, vcpu_type := "EPYC-v4" }
    enable_kvm := true }

/-- A follow-stream state five bytes into a file with cached inode 1. -/
def c9State : FollowState :=
  { lastPos := 5, currentInode := some 1, watchedInode := some 1 }

/-- A poll observation where the path now holds a different inode (2)
with fresh content while the old handle still sees the rotated-away
file. -/
def c9Env : PollEnv :=
  { heartbeatDue := false
    now := 0
    pathExists := true
    pathStat := some 2
    pathContent := "new1\nnew2\n".data
    oldHandleContent := "xxxxx".data
    reopenOk := true }

/-! ## Claims -/

/-- C1, claim as stated, refuted: converting
`InvalidStateTransition` with from Created, to Running into an API response
does not yield HTTP 409 with code CONFLICT — `error.rs` maps the variant
through `ApiError::BadRequest`. -/
theorem C1_counterexample :
    ¬ ((apiErrorOfHypervisorError
          (.invalidStateTransition "Created" "Running")).statusCode = 409 ∧
       (apiErrorOfHypervisorError
          (.invalidStateTransition "Created" "Running")).errorCode = "CONFLICT") := by
  decide

/-- C1 (amended): for every `InvalidStateTransition` error, the
conversion into an API response yields HTTP status 400 with error code
BAD_REQUEST. -/
theorem C1_invalid_transition_maps_to_400 (fromSt toSt : String) :
    (apiErrorOfHypervisorError
        (.invalidStateTransition fromSt toSt)).statusCode = 400 ∧
    (apiErrorOfHypervisorError
        (.invalidStateTransition fromSt toSt)).errorCode = "BAD_REQUEST" :=
  ⟨rfl, rfl⟩

/-- C2, claim as stated, refuted: when the spawn fails, `start` persists
no row at all — in particular no row whose status is `Failed` — for this
concrete instance and spawn failure. -/
theorem C2_counterexample :
    ¬ ∃ w ∈ (startExecute c2State c2Env).1, ∃ e, w.status = InstanceStatus.failed e := by
  have h : (startExecute c2State c2Env).1 = [] := rfl
  simp [h]

/-- C2 (amended): for every instance on which start is invoked and whose
hypervisor spawn fails, `start` persists nothing (so the prior status
remains and the port reservation is kept) and returns an error carrying
the stderr of the spawn. -/
theorem C2_spawn_failure_persists_nothing (st : InstanceState) (env : StartEnv)
    (h1 : st.status ≠ .running) (h2 : st.status ≠ .starting)
    (h3 : env.kernelExists = true) (h4 : env.initrdExists = true)
    (h5 : env.qemu.spawn.exitSuccess = false) :
    startExecute st env =
      ([], .errHyp (.qemuFailed ("QEMU launch failed: " ++ env.qemu.spawn.stderr))) := by
  unfold startExecute
  cases hst : st.status with
  | running => exact absurd hst h1
  | starting => exact absurd hst h2
  | created => simp [h3, h4, launch_vm, h5]
  | stopping => simp [h3, h4, launch_vm, h5]
  | stopped => simp [h3, h4, launch_vm, h5]
  | failed e => simp [h3, h4, launch_vm, h5]

/-- C2 witness: the amended theorem applied to the concrete created
instance and failing spawn. -/
theorem C2_witness :
    startExecute c2State c2Env =
      ([], .errHyp (.qemuFailed ("QEMU launch failed: " ++ "boom"))) :=
  C2_spawn_failure_persists_nothing c2State c2Env
    (by decide) (by decide) (by decide) (by decide) (by decide)

/-- C3: every persisted row reachable from a freshly created instance by
the lifecycle operations has `vm_pid` present if and only if its status is
Running or Stopping. -/
theorem C3_pid_iff_running_or_stopping (st : InstanceState) (h : ReachableRow st) :
    st.vm_pid.isSome ↔ (st.status = .running ∨ st.status = .stopping) := by
  induction h with
  | create id name config qmp serial now =>
    simp [createRow, InstanceState.new]
  | start_write env hst hmem ih =>
    rename_i s s'
    unfold startExecute at hmem
    split at hmem
    · simp at hmem
    · simp at hmem
    · split at hmem
      · simp at hmem
      · split at hmem
        · simp at hmem
        · split at hmem
          · simp at hmem
          · simp at hmem
            subst hmem
            simp [InstanceState.update_status]
  | stop_write env hst hmem ih =>
    rename_i s s'
    unfold stopExecute at hmem
    split at hmem
    · simp at hmem
    · simp at hmem
    · split at hmem
      · simp at hmem
      · rename_i pid hpid
        split at hmem
        · simp at hmem
          subst hmem
          simp [InstanceState.update_status, hpid]
        · simp at hmem
          rcases hmem with hmem | hmem <;> subst hmem <;>
            simp [InstanceState.update_status, hpid]
    · simp at hmem

/-- C3 witness: the invariant theorem applied to the row persisted by a
successful start run on a freshly created instance. -/
theorem C3_witness :
    c3RunningRow.vm_pid.isSome ↔
      (c3RunningRow.status = .running ∨ c3RunningRow.status = .stopping) :=
  C3_pid_iff_running_or_stopping c3RunningRow
    (ReachableRow.start_write c3Env
      (ReachableRow.create "id0" "a" sampleConfig none none 0)
      (by decide))

/-- C4: for every quote string that hex-decodes (after stripping the
optional `0x` prefix) to at least 192 bytes, verification succeeds and
reports `verified = true` exactly when the hex encoding of bytes
`[144, 192)` of the decoded quote equals the expected measurement under
case-insensitive comparison. -/
theorem C4_verified_iff_measurement_matches (resp : QuoteResponse)
    (expected : String) (bytes : List Nat)
    (hdec : hexDecode (stripHexPrefixes resp.quote.data) = some bytes)
    (hlen : 192 ≤ bytes.length) :
    ∃ r, verify_attestation resp expected = .ok r ∧
      (r.verified = true ↔
        eqIgnoreAsciiCase (String.mk (hexEncode ((bytes.drop 144).take 48)))
          expected = true) := by
  unfold verify_attestation extract_measurement_from_report
  rw [hdec]
  have h : ¬ bytes.length < 144 + 48 := by omega
  simp [h]

set_option maxRecDepth 40000 in
/-- C4 witness: the theorem applied to a concrete 192-byte quote. -/
theorem C4_witness :
    ∃ r, verify_attestation zeroQuote192 zeroMeasurement48 = .ok r ∧
      (r.verified = true ↔
        eqIgnoreAsciiCase
          (String.mk (hexEncode (((List.replicate 192 0).drop 144).take 48)))
          zeroMeasurement48 = true) :=
  C4_verified_iff_measurement_matches zeroQuote192 zeroMeasurement48
    (List.replicate 192 0) (by decide) (by decide)

/-- C5: for every quote whose hex decoding is shorter than 192 bytes,
attestation verification returns an error, not a result with
`verified = false`. -/
theorem C5_short_quote_is_error (resp : QuoteResponse) (expected : String)
    (bytes : List Nat)
    (hdec : hexDecode (stripHexPrefixes resp.quote.data) = some bytes)
    (hlen : bytes.length < 192) :
    ∃ e, verify_attestation resp expected = .error e := by
  unfold verify_attestation extract_measurement_from_report
  rw [hdec]
  have h : bytes.length < 144 + 48 := by omega
  simp [h]

/-- C5 witness: the theorem applied to a concrete 10-byte quote. -/
theorem C5_witness :
    ∃ e, verify_attestation zeroQuote10 zeroMeasurement48 = .error e :=
  C5_short_quote_is_error zeroQuote10 zeroMeasurement48
    (List.replicate 10 0) (by decide) (by decide)

/-- The allocation loop equals a first-match search over its `fuel`
candidates `(c + i) % 65536`. -/
lemma allocLoop_eq_find (allocated : List Nat) (avail : Nat → Bool) :
    ∀ (fuel c : Nat), c < 65536 →
      allocLoop allocated avail c fuel =
        match ((List.range fuel).map (fun i => (c + i) % 65536)).find?
            (portAcceptable allocated avail) with
        | some p => .ok p
        | none => .error .noPortsAvailable := by
  intro fuel
  induction fuel with
  | zero => intro c _; rfl
  | succ n ih =>
    intro c hc
    rw [List.range_succ_eq_map]
    simp only [List.map_cons, List.map_map, List.find?_cons, Nat.add_zero,
      Nat.mod_eq_of_lt hc]
    show (if portAcceptable allocated avail c then Except.ok c
          else allocLoop allocated avail (u16succ c) n) = _
    by_cases hp : portAcceptable allocated avail c
    · simp [hp]
    · have hb : portAcceptable allocated avail c = false := by
        simpa using hp
      rw [if_neg hp, hb]
      rw [ih (u16succ c) (Nat.mod_lt _ (by omega))]
      have hfun : (fun i => (u16succ c + i) % 65536) =
          ((fun i => (c + i) % 65536) ∘ Nat.succ) := by
        funext i
        simp only [Function.comp, u16succ, Nat.mod_add_mod]
        congr 1
        omega
      rw [hfun]

/-- C6: `allocate_port` returns the first of the 1000 consecutive
candidates starting at `base` (consecutive as `u16` values, i.e. modulo
`2^16`) that is absent from the port table and passes the OS probe, and
fails with `NoPortsAvailable` when none of the 1000 qualifies. -/
theorem C6_allocate_port_first_of_1000 (allocated : List Nat)
    (avail : Nat → Bool) (base : Nat) (hb : base < 65536) :
    allocate_port allocated avail base =
      match ((List.range 1000).map (fun i => (base + i) % 65536)).find?
          (portAcceptable allocated avail) with
      | some p => .ok p
      | none => .error .noPortsAvailable :=
  allocLoop_eq_find allocated avail 1000 base hb

/-- C6 witness: the theorem applied at base 5050 with ports 5050 and
5051 reserved and every port OS-available; the first match is 5052. -/
theorem C6_witness :
    allocate_port [5050, 5051] (fun _ => true) 5050 =
      match ((List.range 1000).map (fun i => (5050 + i) % 65536)).find?
          (portAcceptable [5050, 5051] (fun _ => true)) with
      | some p => .ok p
      | none => .error .noPortsAvailable :=
  C6_allocate_port_first_of_1000 [5050, 5051] (fun _ => true) 5050 (by decide)

/-- The allocation loop reaches port 0 by `u16` wraparound when every
port from `c` up to 65535 is rejected, there is fuel beyond those
candidates, and port 0 is acceptable. -/
lemma allocLoop_wraps (allocated : List Nat) (avail : Nat → Bool) :
    ∀ (fuel c : Nat), c < 65536 → 65536 - c < fuel →
      (∀ p, c ≤ p → p < 65536 → portAcceptable allocated avail p = false) →
      portAcceptable allocated avail 0 = true →
      allocLoop allocated avail c fuel = .ok 0 := by
  intro fuel
  induction fuel with
  | zero => intro c _ hfuel _ _; omega
  | succ n ih =>
    intro c hc hfuel hreject hzero
    show (if portAcceptable allocated avail c then Except.ok c
          else allocLoop allocated avail (u16succ c) n) = _
    rw [if_neg (by simp [hreject c (Nat.le_refl c) hc])]
    by_cases hwrap : c + 1 < 65536
    · have h : u16succ c = c + 1 := Nat.mod_eq_of_lt hwrap
      rw [h]
      exact ih (c + 1) hwrap (by omega) (fun p hp hp' => hreject p (by omega) hp') hzero
    · have hc1 : u16succ c = 0 := by
        have h : c + 1 = 65536 := by omega
        simp [u16succ, h]
      rw [hc1]
      cases n with
      | zero => omega
      | succ m =>
        show (if portAcceptable allocated avail 0 then Except.ok 0
              else allocLoop allocated avail (u16succ 0) m) = _
        rw [if_pos (by simp [hzero])]

/-- C10: with the `u16` candidate counter wrapping modulo `2^16`, a scan
started above 64536 whose in-range candidates are all rejected reaches
port 0 — a port below `base` — and returns it when it is acceptable,
rather than confining itself to candidates at or above `base` or failing
immediately. -/
theorem C10_wraparound_scans_below_base (allocated : List Nat)
    (avail : Nat → Bool) (base : Nat)
    (h1 : 64536 < base) (h2 : base < 65536)
    (h3 : ∀ p, base ≤ p → p < 65536 → portAcceptable allocated avail p = false)
    (h4 : portAcceptable allocated avail 0 = true) :
    allocate_port allocated avail base = .ok 0 ∧ 0 < base := by
  refine ⟨?_, by omega⟩
  exact allocLoop_wraps allocated avail 1000 base h2 (by omega) h3 h4

/-- C10 witness: base 65000, empty port table, only port 0 OS-available;
the scan wraps and returns port 0. -/
theorem C10_witness :
    allocate_port [] (fun p => p == 0) 65000 = .ok 0 ∧ 0 < 65000 :=
  C10_wraparound_scans_below_base [] (fun p => p == 0) 65000
    (by decide) (by decide)
    (by
      intro p hp hp'
      have h : p ≠ 0 := by omega
      simp [portAcceptable, h])
    (by decide)

/-- C7: for every config with SEV-SNP enabled, the argument vector
contains, in this relative order: `-cpu <sev vcpu_type>`,
`-machine q35,confidential-guest-support=sev0`, the `-object
sev-snp-guest,...` pair, `-bios <bios_path>` when set, `-smp <vcpus>`,
and `-m <memory_mb>M`. -/
theorem C7_sev_args_in_order (c : QemuConfig) (s : SevSnpConfig)
    (hs : c.sev_snp = some s) :
    (["-cpu", s.vcpu_type,
      "-machine", "q35,confidential-guest-support=sev0",
      "-object",
      "sev-snp-guest,id=sev0,cbitpos=" ++ toString s.cbitpos ++
        ",reduced-phys-bits=" ++ toString s.reduced_phys_bits]
     ++ (match c.bios_path with
         | some b => ["-bios", b]
         | none => [])
     ++ ["-smp", toString c.vcpus,
         "-m", toString c.memory_mb ++ "M"]).Sublist c.to_qemu_args := by
  apply List.IsInfix.sublist
  refine ⟨["qemu-system-x86_64"] ++ (if c.enable_kvm then ["-enable-kvm"] else []),
    ["-kernel", c.kernel_path,
     "-initrd", c.initrd_path,
     "-append", c.kernel_cmdline,
     "-netdev", "user,id=net0,hostfwd=tcp::" ++ toString c.rpc_port ++ "-:5050",
     "-device", "virtio-net-pci,netdev=net0"]
    ++ (match c.disk_image with
        | some d => ["-drive", "file=" ++ d ++ ",if=virtio,format=qcow2"]
        | none => [])
    ++ ["-display", "none",
        "-serial", "file:" ++ c.serial_log,
        "-qmp", "unix:" ++ c.qmp_socket ++ ",server,nowait",
        "-daemonize",
        "-pidfile", c.pid_file], ?_⟩
  simp only [QemuConfig.to_qemu_args, hs]
  cases c.bios_path <;> cases c.disk_image <;> cases c.enable_kvm <;>
    simp [List.append_assoc]

/-- C7 witness: the concrete instance named by the claim yields
`-cpu EPYC-v4`, `-machine q35,confidential-guest-support=sev0`,
`-object sev-snp-guest,id=sev0,cbitpos=51,reduced-phys-bits=1`,
`-bios /o`, `-smp 4`, `-m 4096M`, in that order. -/
theorem C7_witness :
    (["-cpu", "EPYC-v4",
      "-machine", "q35,confidential-guest-support=sev0",
      "-object", "sev-snp-guest,id=sev0,cbitpos=51,reduced-phys-bits=1",
      "-bios", "/o",
      "-smp", "4",
      "-m", "4096M"] : List String).Sublist sevClaimConfig.to_qemu_args := by
  have h := C7_sev_args_in_order sevClaimConfig
    { cbitpos := 51, reduced_phys_bits := 1, vcpu_type := "EPYC-v4" } rfl
  have e :
      (["-cpu", "EPYC-v4",
        "-machine", "q35,confidential-guest-support=sev0",
        "-object",
        "sev-snp-guest,id=sev0,cbitpos=" ++ toString (51 : Nat) ++
          ",reduced-phys-bits=" ++ toString (1 : Nat)]
       ++ (match sevClaimConfig.bios_path with
           | some b => ["-bios", b]
           | none => [])
       ++ ["-smp", toString sevClaimConfig.vcpus,
           "-m", toString sevClaimConfig.memory_mb ++ "M"]) =
      (["-cpu", "EPYC-v4",
        "-machine", "q35,confidential-guest-support=sev0",
        "-object", "sev-snp-guest,id=sev0,cbitpos=51,reduced-phys-bits=1",
        "-bios", "/o",
        "-smp", "4",
        "-m", "4096M"] : List String) := by decide
  rw [e] at h
  exact h

/-- Splitting the concatenation of newline-terminated lines on `\n`
recovers the lines followed by one empty final segment. -/
lemma splitOn_newline_join (ls : List String)
    (h : ∀ l ∈ ls, ('\n' : Char) ∉ l.data) :
    ((ls.map (fun l => l.data ++ ['\n'])).flatten).splitOn '\n' =
      ls.map (·.data) ++ [[]] := by
  induction ls with
  | nil => simp [List.splitOn_nil]
  | cons l rest ih =>
    simp only [List.map_cons, List.flatten_cons, List.append_assoc,
      List.singleton_append, List.splitOn]
    have hfirst := List.splitOnP_first (fun x => x == '\n') l.data
      (fun x hx => by
        simp only [beq_iff_eq]
        intro he
        exact h l (List.mem_cons_self l rest) (he ▸ hx))
      '\n' (by simp)
      ((rest.map (fun l => l.data ++ ['\n'])).flatten)
    rw [hfirst]
    have ih' := ih (fun l hl => h l (List.mem_cons_of_mem _ hl))
    simp only [List.splitOn] at ih'
    rw [ih']
    simp

/-- Rebuilding the split line segments with the carriage-return strip is
the identity when no line ends in a carriage return. -/
lemma map_stripCR_data (ls : List String)
    (h : ∀ l ∈ ls, l.data.getLast? ≠ some '\r') :
    (ls.map (fun x => x.data)).map (fun l => String.mk (stripTrailingCR l)) = ls := by
  induction ls with
  | nil => rfl
  | cons l rest ih =>
    simp only [List.map_cons]
    rw [ih (fun x hx => h x (List.mem_cons_of_mem _ hx))]
    have hcr := h l (List.mem_cons_self l rest)
    simp [stripTrailingCR, hcr]

/-- Reading the concatenation of newline-terminated lines back through
`BufRead::lines` recovers exactly those lines, provided no line contains
a newline or ends in a carriage return. -/
lemma readerLines_join (ls : List String)
    (h : ∀ l ∈ ls, ('\n' : Char) ∉ l.data ∧ l.data.getLast? ≠ some '\r') :
    readerLines ((ls.map (fun l => l.data ++ ['\n'])).flatten) = ls := by
  simp only [readerLines]
  rw [splitOn_newline_join ls (fun l hl => (h l hl).1)]
  simp only [List.getLast?_concat, List.dropLast_concat]
  exact map_stripCR_data ls (fun l hl => (h l hl).2)

/-- C8: for every log file containing `K` newline-terminated lines and
every tail count `n ≤ K`, the batched logs operation returns exactly the
last `n` lines of the file in file order and reports
`total_lines = K`, and the returned slice has length `n`. -/
theorem C8_tail_returns_last_n (name : String) (ls : List String) (n : Nat)
    (hl : ∀ l ∈ ls, ('\n' : Char) ∉ l.data ∧ l.data.getLast? ≠ some '\r')
    (hn : n ≤ ls.length) :
    get_logs name ((ls.map (fun l => l.data ++ ['\n'])).flatten) n =
      { instance_name := name
        lines := ls.drop (ls.length - n)
        total_lines := ls.length } ∧
    (ls.drop (ls.length - n)).length = n := by
  constructor
  · simp only [get_logs]
    rw [readerLines_join ls hl]
    have hidx : (if ls.length > n then ls.length - n else 0) = ls.length - n := by
      split <;> omega
    rw [hidx]
  · rw [List.length_drop]
    omega

/-- C8 witness: the theorem applied to a three-line file tailed by 2,
returning the last two lines. -/
theorem C8_witness :
    get_logs "a" ((["l1", "l2", "l3"].map (fun l => l.data ++ ['\n'])).flatten) 2 =
      { instance_name := "a"
        lines := ["l1", "l2", "l3"].drop (["l1", "l2", "l3"].length - 2)
        total_lines := ["l1", "l2", "l3"].length } ∧
    ((["l1", "l2", "l3"] : List String).drop (["l1", "l2", "l3"].length - 2)).length = 2 :=
  C8_tail_returns_last_n "a" ["l1", "l2", "l3"] 2 (by decide) (by decide)

/-- C9: whenever a poll detects rotation — the path's inode differs from
the cached inode, or the open file shrank below the read offset — while
the path still exists (so the reopen succeeds), the iteration resets the
read offset, refreshes the cached inode and the watch registration to
the new file, emits exactly one `info` event, continues the stream, and
the `log` events it emits are the lines of the new file read from byte
0, leaving the offset at the new file's end. -/
theorem C9_rotation_poll (st : FollowState) (env : PollEnv)
    (hex : env.pathExists = true)
    (hopen : env.reopenOk = true)
    (hrot : (match env.pathStat, st.currentInode with
             | some ni, some oi => ni != oi
             | _, _ => false) = true
            ∨ env.oldHandleContent.length < st.lastPos) :
    pollStep st env =
      ({ lastPos := env.pathContent.length
         currentInode := env.pathStat
         watchedInode := env.pathStat },
       (if env.heartbeatDue then [SseEvent.heartbeat env.now] else []) ++
         SseEvent.info "Log file rotated, reopened" ::
           (readerLines env.pathContent).map SseEvent.log,
       true) ∧
    ((pollStep st env).2.1.countP SseEvent.isInfo) = 1 := by
  have hmain : pollStep st env =
      ({ lastPos := env.pathContent.length
         currentInode := env.pathStat
         watchedInode := env.pathStat },
       (if env.heartbeatDue then [SseEvent.heartbeat env.now] else []) ++
         SseEvent.info "Log file rotated, reopened" ::
           (readerLines env.pathContent).map SseEvent.log,
       true) := by
    rcases hrot with h1 | h2
    · rcases Nat.eq_zero_or_pos env.pathContent.length with hc | hc
      · have hnil : env.pathContent = [] := List.length_eq_zero.mp hc
        simp [pollStep, hex, h1, hopen, hnil, readerLines]
      · simp [pollStep, hex, h1, hopen, Nat.not_lt.mpr (Nat.zero_le _), hc]
    · rcases Nat.eq_zero_or_pos env.pathContent.length with hc | hc
      · have hnil : env.pathContent = [] := List.length_eq_zero.mp hc
        simp [pollStep, hex, h2, hopen, hnil, readerLines]
      · simp [pollStep, hex, h2, hopen, hc]
  refine ⟨hmain, ?_⟩
  rw [hmain]
  by_cases hhb : env.heartbeatDue <;>
    simp [hhb, List.countP_append, List.countP_cons, SseEvent.isInfo,
      List.countP_map, Function.comp, List.countP_eq_zero]

/-- C9 witness: the rotation theorem applied to the concrete inode
change. -/
theorem C9_witness :
    pollStep c9State c9Env =
      ({ lastPos := c9Env.pathContent.length
         currentInode := c9Env.pathStat
         watchedInode := c9Env.pathStat },
       (if c9Env.heartbeatDue then [SseEvent.heartbeat c9Env.now] else []) ++
         SseEvent.info "Log file rotated, reopened" ::
           (readerLines c9Env.pathContent).map SseEvent.log,
       true) ∧
    ((pollStep c9State c9Env).2.1.countP SseEvent.isInfo) = 1 :=
  C9_rotation_poll c9State c9Env rfl rfl (Or.inl (by decide))

end Katana
